import Mathlib

/-!
Verification of the edge-context token validator and key-rotation
subsystem (`edgecontext/validator.go`).

The embedding keeps the Go source's structure.  External collaborators
are modelled as parameters:

* `jwt.ParseWithClaims` (the jwt library's parse-and-verify of one token
  under one key) is an oracle `String → RSAPublicKey → ParseOutcome`;
* `jwt.ParseRSAPublicKeyFromPEM` is an oracle
  `String → Except String RSAPublicKey`;
* `sec.GetVersionedSecret(...)` followed by `versioned.GetAll()` is an
  input `Except String (List String)`;
* the `atomic.Value` slot `keysValue` is an explicit
  `Option keysType` argument (it holds nothing until the first
  successful `Store`, matching the failing type assertion in Go);
* `logger` calls are accumulated into a returned `List String`.

Go's `(*AuthenticationToken, error)` return is kept as a pair of
`Option`s so that the nil/nil corner is representable.
-/

namespace Edgecontext

/-- Opaque stand-in for `*rsa.PublicKey`: the validator only passes keys
through to the jwt library, so a key is identified by an abstract id. -/
structure RSAPublicKey where
  keyId : Nat
deriving DecidableEq, Repr

/-- `type keysType []*rsa.PublicKey` from the source. -/
abbrev keysType := List RSAPublicKey

/-- Decoded claims of a verified token.  The validator treats the claims
value opaquely (it only hands it back to the caller), so the payload is
abstract. -/
structure AuthenticationToken where
  payload : String
deriving DecidableEq, Repr

/-- `jwt.ValidationError`: a text plus a `uint32` bitfield of error
flags (field `Errors` in the library). -/
structure ValidationError where
  text : String
  errors : Nat
deriving DecidableEq, Repr

/-- Bit flag `jwt.ValidationErrorMalformed` (1 << 0) of the jwt library. -/
def ValidationErrorMalformed : Nat := 1

/-- Bit flag `jwt.ValidationErrorUnverifiable` (1 << 1). -/
def ValidationErrorUnverifiable : Nat := 2

/-- Bit flag `jwt.ValidationErrorSignatureInvalid` (1 << 2). -/
def ValidationErrorSignatureInvalid : Nat := 4

/-- Bit flag `jwt.ValidationErrorAudience` (1 << 3). -/
def ValidationErrorAudience : Nat := 8

/-- Bit flag `jwt.ValidationErrorExpired` (1 << 4). -/
def ValidationErrorExpired : Nat := 16

/-- Bit flag `jwt.ValidationErrorIssuedAt` (1 << 5): token used before
issued, i.e. the `iat` claim lies in the future. -/
def ValidationErrorIssuedAt : Nat := 32

/-- Bit flag `jwt.ValidationErrorIssuer` (1 << 6). -/
def ValidationErrorIssuer : Nat := 64

/-- Bit flag `jwt.ValidationErrorNotValidYet` (1 << 7): the `nbf` claim
lies in the future. -/
def ValidationErrorNotValidYet : Nat := 128

/-- Bit flag `jwt.ValidationErrorId` (1 << 8). -/
def ValidationErrorId : Nat := 256

/-- Bit flag `jwt.ValidationErrorClaimsInvalid` (1 << 9). -/
def ValidationErrorClaimsInvalid : Nat := 512

/-- A Go `error` value as seen by `ValidateToken`: either a plain error
built with `errors.New`, or a `jwt.ValidationError`, or some other error
value that `errors.As` does not match as a `jwt.ValidationError`. -/
inductive GoError where
  | errorsNew (msg : String)
  | jwtValidation (ve : ValidationError)
  | nonValidation (msg : String)
deriving DecidableEq, Repr

/-- The `*jwt.Token` fields that `ValidateToken` inspects after a
successful (err == nil) `jwt.ParseWithClaims` call: whether the claims
assert to `*AuthenticationToken`, the `Valid` flag, the declared
algorithm `Method.Alg()`, and the decoded claims. -/
structure ParsedToken where
  claimsOk : Bool
  valid : Bool
  alg : String
  claims : AuthenticationToken
deriving DecidableEq, Repr

/-- Result of one `jwt.ParseWithClaims` call: `failure e` models
`err != nil`, `success tok` models `err == nil` with the returned token. -/
inductive ParseOutcome where
  | failure (e : GoError)
  | success (tok : ParsedToken)
deriving DecidableEq, Repr

/-- `jwt.NewValidationError(errorText, errorFlags)`. -/
def jwtNewValidationError (errorText : String) (errorFlags : Nat) : ValidationError :=
  ⟨errorText, errorFlags⟩

/-- `authenticationPubKeySecretPath` constant from the source. -/
def authenticationPubKeySecretPath : String := "secret/authentication/public-key"

/-- `jwtAlg` constant from the source. -/
def jwtAlg : String := "RS256"

/-- `shortCircuitErrors` from the source, in source order: the bitmasks
on which the key-retry loop returns early. -/
def shortCircuitErrors : List Nat :=
  [ValidationErrorMalformed,
   ValidationErrorAudience,
   ValidationErrorExpired,
   ValidationErrorIssuedAt,
   ValidationErrorIssuer,
   ValidationErrorNotValidYet,
   ValidationErrorId,
   ValidationErrorClaimsInvalid]

/-- `errors.As(err, &ve)` with `ve` a `jwt.ValidationError`: matches
exactly when the error is a `jwt.ValidationError`, yielding it. -/
def errorsAsValidationError : GoError → Option ValidationError
  | GoError.jwtValidation ve => some ve
  | GoError.errorsNew _ => none
  | GoError.nonValidation _ => none

/-- `shouldShortCircutError` from the source (name kept verbatim,
including the source's spelling): true iff the error is a
`jwt.ValidationError` whose bitfield intersects one of the
`shortCircuitErrors` masks. -/
def shouldShortCircutError (err : GoError) : Bool :=
  match errorsAsValidationError err with
  | some ve => shortCircuitErrors.any (fun bitmask => ve.errors &&& bitmask != 0)
  | none => false

/-- The `for _, key := range keys` loop body of `ValidateToken`, with
`lastErr` threaded explicitly.  Besides the Go result pair
`(*AuthenticationToken, error)` it also returns the number of keys for
which `jwt.ParseWithClaims` was invoked (one per loop iteration entered),
as instrumentation for the attempt-count claims. -/
def validateLoop (parse : RSAPublicKey → ParseOutcome) :
    List RSAPublicKey → Option GoError →
      (Option AuthenticationToken × Option GoError) × Nat
  | [], lastErr => ((none, lastErr), 0)
  | key :: rest, lastErr =>
    match parse key with
    | ParseOutcome.failure err =>
      if shouldShortCircutError err then
        ((none, some err), 1)
      else
        -- Try next pubkey.
        let r := validateLoop parse rest (some err)
        (r.1, r.2 + 1)
    | ParseOutcome.success tok =>
      if tok.claimsOk && tok.valid && (tok.alg == jwtAlg) then
        ((some tok.claims, none), 1)
      else
        let r := validateLoop parse rest
          (some (GoError.jwtValidation (jwtNewValidationError "" 0)))
        (r.1, r.2 + 1)
  -- `lastErr` enters the loop as Go's nil; see `ValidateToken`.

/-- `ValidateToken` from the source.  `keysValue` is the current content
of the atomic slot (`none` models the failing type assertion when
nothing was ever stored); `parseWithClaims` is the jwt library oracle
applied to the token string and the key returned by the keyfunc. -/
def ValidateToken (parseWithClaims : String → RSAPublicKey → ParseOutcome)
    (keysValue : Option keysType) (token : String) :
    Option AuthenticationToken × Option GoError :=
  match keysValue with
  | none => (none, some (GoError.errorsNew "no public keys loaded"))
  | some keys => (validateLoop (fun key => parseWithClaims token key) keys none).1

/-- Number of per-key verification attempts (`jwt.ParseWithClaims`
calls) a `ValidateToken` run performs: the instrumentation component of
`validateLoop`, and 0 when no keys were ever loaded. -/
def ValidateTokenAttempts (parseWithClaims : String → RSAPublicKey → ParseOutcome)
    (keysValue : Option keysType) (token : String) : Nat :=
  match keysValue with
  | none => 0
  | some keys => (validateLoop (fun key => parseWithClaims token key) keys none).2

/-- The `for i, v := range all` loop of `validatorMiddleware`: parses
each PEM version, collecting successfully parsed keys in order and a log
line for each failure. -/
def parseKeysLoop (parseRSAPublicKeyFromPEM : String → Except String RSAPublicKey) :
    Nat → List String → keysType × List String
  | _, [] => ([], [])
  | i, v :: rest =>
    let r := parseKeysLoop parseRSAPublicKeyFromPEM (i + 1) rest
    match parseRSAPublicKeyFromPEM v with
    | Except.error err =>
      (r.1, ("Failed to parse key #" ++ toString i ++ ": " ++ err) :: r.2)
    | Except.ok key => (key :: r.1, r.2)

/-- Body of the handler returned by `validatorMiddleware` (the
`OnSecretUpdate` path), acting on the atomic slot state.
`getVersionedSecret` is the outcome of
`sec.GetVersionedSecret(authenticationPubKeySecretPath)` followed by
`versioned.GetAll()`.  Returns the new slot content and the log lines
emitted. -/
def validatorMiddleware
    (getVersionedSecret : Except String (List String))
    (parseRSAPublicKeyFromPEM : String → Except String RSAPublicKey)
    (keysValue : Option keysType) : Option keysType × List String :=
  match getVersionedSecret with
  | Except.error e =>
    (keysValue,
     ["Failed to get secrets " ++ authenticationPubKeySecretPath ++ ": " ++ e])
  | Except.ok all =>
    let parsed := parseKeysLoop parseRSAPublicKeyFromPEM 0 all
    if parsed.1 = [] then
      (keysValue, parsed.2 ++ ["No valid keys in secrets store."])
    else
      (some parsed.1, parsed.2)

/-- Modelled from the spec: the seven short-circuit kinds the spec
enumerates ("malformed, audience-mismatch, expired, issued-in-future,
issuer-mismatch, id-invalid, claims-invalid"), rendered as the
corresponding jwt bitmasks; `issued-in-future` is `ValidationErrorIssuedAt`
(the jwt library's "token used before issued").  Missing from src/: the
spec's ShortCircuitPolicy table itself, which the spec states in prose. -/
def specSevenKindMasks : List Nat :=
  [ValidationErrorMalformed,
   ValidationErrorAudience,
   ValidationErrorExpired,
   ValidationErrorIssuedAt,
   ValidationErrorIssuer,
   ValidationErrorId,
   ValidationErrorClaimsInvalid]

/-- Modelled from the spec: whether a failure's classified kind is one
of the spec's seven abort kinds (see `specSevenKindMasks`). -/
def specShortCircuitKind (err : GoError) : Bool :=
  match errorsAsValidationError err with
  | some ve => specSevenKindMasks.any (fun bitmask => ve.errors &&& bitmask != 0)
  | none => false

/-- Keys of a bundle that parse successfully, in bundle order. -/
def successfullyParsedKeys
    (parseRSAPublicKeyFromPEM : String → Except String RSAPublicKey)
    (all : List String) : keysType :=
  all.filterMap (fun v => (parseRSAPublicKeyFromPEM v).toOption)

/-- What the loop body of `ValidateToken` records into `lastErr` for a
key it moves past: the parse failure itself, or the blank
`jwt.NewValidationError("", 0)` when parsing succeeded but the token was
not accepted. -/
def recordedError (parse : RSAPublicKey → ParseOutcome) (key : RSAPublicKey) : GoError :=
  match parse key with
  | ParseOutcome.failure e => e
  | ParseOutcome.success _ => GoError.jwtValidation (jwtNewValidationError "" 0)

/-! ### Helper lemmas -/

theorem expired_bit_short_circuits (ve : ValidationError)
    (h : ve.errors &&& ValidationErrorExpired ≠ 0) :
    shouldShortCircutError (GoError.jwtValidation ve) = true := by
  unfold shouldShortCircutError errorsAsValidationError
  simp only [List.any_eq_true]
  exact ⟨ValidationErrorExpired, by simp [shortCircuitErrors],
    by simpa [bne_iff_ne] using h⟩

theorem parseKeysLoop_keys (p : String → Except String RSAPublicKey)
    (all : List String) (i : Nat) :
    (parseKeysLoop p i all).1 = successfullyParsedKeys p all := by
  induction all generalizing i with
  | nil => rfl
  | cons v rest ih =>
    cases hp : p v <;>
      simp [parseKeysLoop, successfullyParsedKeys, hp, Except.toOption, ih i.succ,
        List.filterMap_cons]

theorem parseKeysLoop_logs (p : String → Except String RSAPublicKey)
    (all : List String) (i : Nat) :
    (parseKeysLoop p i all).2.length =
      all.countP (fun v => ((p v).toOption).isNone) := by
  induction all generalizing i with
  | nil => rfl
  | cons v rest ih =>
    cases hp : p v <;>
      simp [parseKeysLoop, hp, Except.toOption, List.countP_cons, ih i.succ]

/-! ### Concrete material for witnesses -/

/-- A pure signature-mismatch failure (not in the short-circuit table). -/
def wSigErr : GoError :=
  GoError.jwtValidation ⟨"crypto/rsa: verification error", ValidationErrorSignatureInvalid⟩

/-- A pure not-before (`nbf` in the future) failure. -/
def wNbfErr : GoError :=
  GoError.jwtValidation ⟨"token is not valid yet", ValidationErrorNotValidYet⟩

/-- An expired-token failure. -/
def wExpiredVe : ValidationError := ⟨"token is expired", ValidationErrorExpired⟩

def wNbfParse : RSAPublicKey → ParseOutcome := fun _ => ParseOutcome.failure wNbfErr

def wSigParse : RSAPublicKey → ParseOutcome := fun _ => ParseOutcome.failure wSigErr

def wExpiredParse : String → RSAPublicKey → ParseOutcome :=
  fun _ _ => ParseOutcome.failure (GoError.jwtValidation wExpiredVe)

/-! ### Claims -/

/-- Claim C1, counterexample to the claim as stated: a failure whose
bitfield is exactly `ValidationErrorNotValidYet` is classified by the
spec's seven-kind table as not-abort (its kind is none of the seven, so
per the claim the loop should record it and continue), yet the code's
`shouldShortCircutError` is true on it and the validation loop aborts
after one key with two keys loaded, returning that failure. -/
theorem c1_counterexample :
    specShortCircuitKind wNbfErr = false ∧
    shouldShortCircutError wNbfErr = true ∧
    validateLoop wNbfParse [⟨1⟩, ⟨2⟩] none = ((none, some wNbfErr), 1) := by
  decide

/-- Claim C1, amended: for every failed key attempt the loop aborts and
returns the failure iff `shouldShortCircutError` holds, which happens
iff the failure is a `jwt.ValidationError` whose bitfield meets one of
EIGHT kinds: malformed, audience-mismatch, expired, issued-in-future,
issuer-mismatch, not-valid-yet, id-invalid, claims-invalid; on every
other failure the loop records it as the last error and continues. -/
theorem c1_short_circuit_iff_eight_kinds (parse : RSAPublicKey → ParseOutcome)
    (key : RSAPublicKey) (rest : List RSAPublicKey) (lastErr : Option GoError)
    (e : GoError) (h : parse key = ParseOutcome.failure e) :
    (shouldShortCircutError e = true →
      validateLoop parse (key :: rest) lastErr = ((none, some e), 1)) ∧
    (shouldShortCircutError e = false →
      validateLoop parse (key :: rest) lastErr =
        ((validateLoop parse rest (some e)).1,
         (validateLoop parse rest (some e)).2 + 1)) ∧
    (shouldShortCircutError e = true ↔
      ∃ ve, errorsAsValidationError e = some ve ∧
        (ve.errors &&& ValidationErrorMalformed ≠ 0 ∨
         ve.errors &&& ValidationErrorAudience ≠ 0 ∨
         ve.errors &&& ValidationErrorExpired ≠ 0 ∨
         ve.errors &&& ValidationErrorIssuedAt ≠ 0 ∨
         ve.errors &&& ValidationErrorIssuer ≠ 0 ∨
         ve.errors &&& ValidationErrorNotValidYet ≠ 0 ∨
         ve.errors &&& ValidationErrorId ≠ 0 ∨
         ve.errors &&& ValidationErrorClaimsInvalid ≠ 0)) := by
  refine ⟨fun hsc => by simp [validateLoop, h, hsc],
    fun hsc => by simp [validateLoop, h, hsc], ?_⟩
  unfold shouldShortCircutError
  cases he : errorsAsValidationError e with
  | none => simp
  | some ve =>
    simp [shortCircuitErrors, List.any_cons, List.any_nil, bne_iff_ne,
      or_assoc]

/-- Witness for `c1_short_circuit_iff_eight_kinds`: a pure
signature-invalid failure does not abort the loop. -/
theorem c1_short_circuit_iff_eight_kinds_witness :
    validateLoop wSigParse [⟨1⟩] none =
      ((validateLoop wSigParse [] (some wSigErr)).1,
       (validateLoop wSigParse [] (some wSigErr)).2 + 1) :=
  (c1_short_circuit_iff_eight_kinds wSigParse ⟨1⟩ [] none wSigErr rfl).2.1 (by decide)

/-- Claim C2: with keys loaded, a token whose every key attempt fails
with the expired bit set makes `ValidateToken` return an expired failure
after exactly one key attempt, however many keys are loaded. -/
theorem c2_expired_one_attempt
    (parseWithClaims : String → RSAPublicKey → ParseOutcome) (token : String)
    (keys : keysType) (hne : keys ≠ [])
    (hexp : ∀ k ∈ keys, ∃ ve : ValidationError,
      parseWithClaims token k = ParseOutcome.failure (GoError.jwtValidation ve) ∧
      ve.errors &&& ValidationErrorExpired ≠ 0) :
    (∃ ve : ValidationError,
      ValidateToken parseWithClaims (some keys) token =
        (none, some (GoError.jwtValidation ve)) ∧
      ve.errors &&& ValidationErrorExpired ≠ 0) ∧
    ValidateTokenAttempts parseWithClaims (some keys) token = 1 := by
  cases keys with
  | nil => exact absurd rfl hne
  | cons k rest =>
    obtain ⟨ve, hk, hbit⟩ := hexp k (List.mem_cons_self _ _)
    have hsc := expired_bit_short_circuits ve hbit
    exact ⟨⟨ve, by simp [ValidateToken, validateLoop, hk, hsc], hbit⟩,
      by simp [ValidateTokenAttempts, validateLoop, hk, hsc]⟩

/-- Witness for `c2_expired_one_attempt` with three keys loaded. -/
theorem c2_expired_one_attempt_witness :
    (∃ ve : ValidationError,
      ValidateToken wExpiredParse (some [⟨1⟩, ⟨2⟩, ⟨3⟩]) "t" =
        (none, some (GoError.jwtValidation ve)) ∧
      ve.errors &&& ValidationErrorExpired ≠ 0) ∧
    ValidateTokenAttempts wExpiredParse (some [⟨1⟩, ⟨2⟩, ⟨3⟩]) "t" = 1 :=
  c2_expired_one_attempt wExpiredParse "t" [⟨1⟩, ⟨2⟩, ⟨3⟩] (by decide)
    (fun _ _ => ⟨wExpiredVe, rfl, by decide⟩)

/-- Claim C3: with nothing ever published to the key slot,
`ValidateToken` fails immediately with the no-keys error and performs
zero per-key verification attempts, for every input string. -/
theorem c3_no_keys_available
    (parseWithClaims : String → RSAPublicKey → ParseOutcome) (token : String) :
    ValidateToken parseWithClaims none token =
      (none, some (GoError.errorsNew "no public keys loaded")) ∧
    ValidateTokenAttempts parseWithClaims none token = 0 :=
  ⟨rfl, rfl⟩

/-- PEM parse oracle that rejects everything (for the C4 witness). -/
def wBadPEM : String → Except String RSAPublicKey := fun _ => Except.error "invalid key"

/-- Claim C4: a secret update whose bundle yields zero parseable keys
(which covers a failed secret fetch, where no version parses) leaves the
published slot unchanged, and every update preserves the invariant that
a published set is non-empty — so a published set is never replaced by
an empty one. -/
theorem c4_empty_update_discarded
    (getVersionedSecret : Except String (List String))
    (p : String → Except String RSAPublicKey) (keysValue : Option keysType) :
    ((∀ all, getVersionedSecret = Except.ok all →
        successfullyParsedKeys p all = []) →
      (validatorMiddleware getVersionedSecret p keysValue).1 = keysValue) ∧
    (∀ ks, keysValue = some ks → ks ≠ [] →
      ∃ ks', (validatorMiddleware getVersionedSecret p keysValue).1 = some ks' ∧
        ks' ≠ []) := by
  cases getVersionedSecret with
  | error e =>
    exact ⟨fun _ => rfl,
      fun ks hks hne => ⟨ks, by simp [validatorMiddleware, hks], hne⟩⟩
  | ok all =>
    constructor
    · intro hz
      have h0 : (parseKeysLoop p 0 all).1 = [] := by
        rw [parseKeysLoop_keys]
        exact hz all rfl
      simp [validatorMiddleware, h0]
    · intro ks hks hne
      by_cases h0 : (parseKeysLoop p 0 all).1 = []
      · exact ⟨ks, by simp [validatorMiddleware, h0, hks], hne⟩
      · exact ⟨(parseKeysLoop p 0 all).1, by simp [validatorMiddleware, h0], h0⟩

/-- Witness for `c4_empty_update_discarded`: one unparseable version,
previous set `[⟨1⟩]` stays live and non-empty. -/
theorem c4_empty_update_discarded_witness :
    (validatorMiddleware (Except.ok ["v0"]) wBadPEM (some [⟨1⟩])).1 = some [⟨1⟩] ∧
    ∃ ks', (validatorMiddleware (Except.ok ["v0"]) wBadPEM (some [⟨1⟩])).1 = some ks' ∧
      ks' ≠ [] := by
  have h := c4_empty_update_discarded (Except.ok ["v0"]) wBadPEM (some [⟨1⟩])
  refine ⟨h.1 ?_, h.2 [⟨1⟩] rfl (by decide)⟩
  intro all hall
  cases hall
  rfl

/-- PEM parse oracle for the C5 witness: rejects the payload "bad",
accepts everything else. -/
def wPEMParse : String → Except String RSAPublicKey := fun v =>
  if v = "bad" then Except.error "asn1 structure error" else Except.ok ⟨v.length⟩

/-- Claim C5: an update with at least one parseable version publishes
exactly the successfully parsed keys in bundle order, replacing the
previous slot content wholesale; each failing version is skipped with
one log line, and processing continues (the log count equals the number
of failing versions). -/
theorem c5_publishes_parsed_keys_in_order
    (all : List String) (p : String → Except String RSAPublicKey)
    (keysValue : Option keysType)
    (hne : successfullyParsedKeys p all ≠ []) :
    (validatorMiddleware (Except.ok all) p keysValue).1 =
      some (successfullyParsedKeys p all) ∧
    (validatorMiddleware (Except.ok all) p keysValue).2.length =
      all.countP (fun v => ((p v).toOption).isNone) := by
  have hk := parseKeysLoop_keys p all 0
  have h0 : ¬ (parseKeysLoop p 0 all).1 = [] := by
    rw [hk]
    exact hne
  exact ⟨by simp [validatorMiddleware, h0, hk, hne],
    by simp [validatorMiddleware, h0, parseKeysLoop_logs]⟩

/-- Witness for `c5_publishes_parsed_keys_in_order`: versions
`["good", "bad", "good2"]` publish the two parsed keys in order with one
failure logged. -/
theorem c5_publishes_parsed_keys_in_order_witness :
    (validatorMiddleware (Except.ok ["good", "bad", "good2"]) wPEMParse none).1 =
      some (successfullyParsedKeys wPEMParse ["good", "bad", "good2"]) ∧
    (validatorMiddleware (Except.ok ["good", "bad", "good2"]) wPEMParse none).2.length =
      (["good", "bad", "good2"].countP (fun v => ((wPEMParse v).toOption).isNone)) :=
  c5_publishes_parsed_keys_in_order ["good", "bad", "good2"] wPEMParse none (by decide)

/-- A token the validator accepts (right algorithm, valid, claims ok). -/
def wTok : ParsedToken := ⟨true, true, "RS256", ⟨"user-1"⟩⟩

/-- Parse oracle for the C6 witness: key `⟨2⟩` verifies the token, any
other key yields a signature mismatch. -/
def wTwoKeyParse : String → RSAPublicKey → ParseOutcome := fun _ k =>
  if k = ⟨2⟩ then ParseOutcome.success wTok else ParseOutcome.failure wSigErr

/-- Claim C6: with keys `[k1, k2]`, a token failing signature
verification under `k1` (a non-short-circuit failure) and accepted under
`k2` makes `ValidateToken` succeed with the token's claims after exactly
two attempts; in general a key whose attempt is accepted returns
immediately with one attempt charged, whatever keys follow. -/
theorem c6_second_key_wins
    (parseWithClaims : String → RSAPublicKey → ParseOutcome) (token : String)
    (k1 k2 : RSAPublicKey) (e : GoError) (tok : ParsedToken)
    (h1 : parseWithClaims token k1 = ParseOutcome.failure e)
    (hsc : shouldShortCircutError e = false)
    (h2 : parseWithClaims token k2 = ParseOutcome.success tok)
    (hok : (tok.claimsOk && tok.valid && (tok.alg == jwtAlg)) = true) :
    ValidateToken parseWithClaims (some [k1, k2]) token = (some tok.claims, none) ∧
    ValidateTokenAttempts parseWithClaims (some [k1, k2]) token = 2 ∧
    (∀ (rest : List RSAPublicKey) (lastErr : Option GoError),
      validateLoop (fun key => parseWithClaims token key) (k2 :: rest) lastErr =
        ((some tok.claims, none), 1)) := by
  refine ⟨?_, ?_, fun rest lastErr => ?_⟩ <;>
    simp [ValidateToken, ValidateTokenAttempts, validateLoop, h1, hsc, h2, hok]

/-- Witness for `c6_second_key_wins`. -/
theorem c6_second_key_wins_witness :
    ValidateToken wTwoKeyParse (some [⟨1⟩, ⟨2⟩]) "t" = (some wTok.claims, none) ∧
    ValidateTokenAttempts wTwoKeyParse (some [⟨1⟩, ⟨2⟩]) "t" = 2 ∧
    (∀ (rest : List RSAPublicKey) (lastErr : Option GoError),
      validateLoop (fun key => wTwoKeyParse "t" key) (⟨2⟩ :: rest) lastErr =
        ((some wTok.claims, none), 1)) :=
  c6_second_key_wins wTwoKeyParse "t" ⟨1⟩ ⟨2⟩ wSigErr wTok (by decide) (by decide)
    (by decide) (by decide)

/-- One loop step on a failure that does not short-circuit: the failure
is remembered and the loop continues. -/
theorem validateLoop_failure_continue
    (parse : RSAPublicKey → ParseOutcome) (k : RSAPublicKey)
    (rest : List RSAPublicKey) (lastErr : Option GoError) (e : GoError)
    (hk : parse k = ParseOutcome.failure e)
    (hsc : shouldShortCircutError e = false) :
    validateLoop parse (k :: rest) lastErr =
      ((validateLoop parse rest (some e)).1,
       (validateLoop parse rest (some e)).2 + 1) := by
  simp [validateLoop, hk, hsc]

/-- One loop step on a parsed-but-not-accepted token: the blank
validation error is remembered and the loop continues. -/
theorem validateLoop_success_bad_continue
    (parse : RSAPublicKey → ParseOutcome) (k : RSAPublicKey)
    (rest : List RSAPublicKey) (lastErr : Option GoError) (tok : ParsedToken)
    (hk : parse k = ParseOutcome.success tok)
    (hbad : (tok.claimsOk && tok.valid && (tok.alg == jwtAlg)) = false) :
    validateLoop parse (k :: rest) lastErr =
      ((validateLoop parse rest
          (some (GoError.jwtValidation (jwtNewValidationError "" 0)))).1,
       (validateLoop parse rest
          (some (GoError.jwtValidation (jwtNewValidationError "" 0)))).2 + 1) := by
  simp [validateLoop, hk, hbad]

/-- Exhaustion lemma for the loop: when every key's attempt is either a
non-short-circuit failure or a parsed-but-not-accepted token, the loop
visits every key and ends with the error recorded for the last key. -/
theorem validateLoop_exhausts
    (parse : RSAPublicKey → ParseOutcome) (keys : List RSAPublicKey)
    (hall : ∀ k ∈ keys,
      (∃ e, parse k = ParseOutcome.failure e ∧ shouldShortCircutError e = false) ∨
      (∃ tok, parse k = ParseOutcome.success tok ∧
        (tok.claimsOk && tok.valid && (tok.alg == jwtAlg)) = false)) :
    ∀ lastErr : Option GoError, keys ≠ [] →
      ∃ klast, keys.getLast? = some klast ∧
        validateLoop parse keys lastErr =
          ((none, some (recordedError parse klast)), keys.length) := by
  induction keys with
  | nil => exact fun _ h => absurd rfl h
  | cons k rest ih =>
    intro lastErr _
    have hrest : ∀ x ∈ rest,
        (∃ e, parse x = ParseOutcome.failure e ∧ shouldShortCircutError e = false) ∨
        (∃ tok, parse x = ParseOutcome.success tok ∧
          (tok.claimsOk && tok.valid && (tok.alg == jwtAlg)) = false) :=
      fun x hx => hall x (List.mem_cons_of_mem _ hx)
    rcases hall k (List.mem_cons_self _ _) with ⟨e, hk, hsc⟩ | ⟨tok, hk, hbad⟩
    · cases rest with
      | nil =>
        exact ⟨k, rfl, by simp [validateLoop, hk, hsc, recordedError]⟩
      | cons k2 rest2 =>
        obtain ⟨klast, hlast, hloop⟩ := ih hrest (some e) (by simp)
        refine ⟨klast, ?_, ?_⟩
        · rw [List.getLast?_cons_cons]
          exact hlast
        · rw [validateLoop_failure_continue parse k (k2 :: rest2) lastErr e hk hsc,
            hloop]
          rfl
    · cases rest with
      | nil =>
        exact ⟨k, rfl, by simp [validateLoop, hk, hbad, recordedError]⟩
      | cons k2 rest2 =>
        obtain ⟨klast, hlast, hloop⟩ :=
          ih hrest (some (GoError.jwtValidation (jwtNewValidationError "" 0))) (by simp)
        refine ⟨klast, ?_, ?_⟩
        · rw [List.getLast?_cons_cons]
          exact hlast
        · rw [validateLoop_success_bad_continue parse k (k2 :: rest2) lastErr tok hk hbad,
            hloop]
          rfl

/-- Claim C7: with a non-empty key set loaded, if every key is tried
without success (each attempt either fails without short-circuiting or
yields a token the validator does not accept), `ValidateToken` returns
the error remembered for the last key, after trying all the keys. -/
theorem c7_exhaustion_returns_last_error
    (parseWithClaims : String → RSAPublicKey → ParseOutcome) (token : String)
    (keys : keysType) (hne : keys ≠ [])
    (hall : ∀ k ∈ keys,
      (∃ e, parseWithClaims token k = ParseOutcome.failure e ∧
        shouldShortCircutError e = false) ∨
      (∃ tok, parseWithClaims token k = ParseOutcome.success tok ∧
        (tok.claimsOk && tok.valid && (tok.alg == jwtAlg)) = false)) :
    ∃ klast, keys.getLast? = some klast ∧
      ValidateToken parseWithClaims (some keys) token =
        (none, some (recordedError (fun key => parseWithClaims token key) klast)) ∧
      ValidateTokenAttempts parseWithClaims (some keys) token = keys.length := by
  obtain ⟨klast, hlast, hloop⟩ :=
    validateLoop_exhausts (fun key => parseWithClaims token key) keys hall none hne
  exact ⟨klast, hlast, by simp [ValidateToken, hloop],
    by simp [ValidateTokenAttempts, hloop]⟩

/-- A token the validator does not accept: wrong declared algorithm. -/
def wBadTok : ParsedToken := ⟨true, true, "HS256", ⟨"u"⟩⟩

/-- Parse oracle for the C7 witness: signature mismatch under key `⟨1⟩`,
wrong-algorithm token under key `⟨2⟩`. -/
def wExhaustParse : String → RSAPublicKey → ParseOutcome := fun _ k =>
  if k = ⟨2⟩ then ParseOutcome.success wBadTok else ParseOutcome.failure wSigErr

/-- Witness for `c7_exhaustion_returns_last_error`. -/
theorem c7_exhaustion_returns_last_error_witness :
    ∃ klast, ([⟨1⟩, ⟨2⟩] : keysType).getLast? = some klast ∧
      ValidateToken wExhaustParse (some [⟨1⟩, ⟨2⟩]) "t" =
        (none, some (recordedError (fun key => wExhaustParse "t" key) klast)) ∧
      ValidateTokenAttempts wExhaustParse (some [⟨1⟩, ⟨2⟩]) "t" = 2 :=
  c7_exhaustion_returns_last_error wExhaustParse "t" [⟨1⟩, ⟨2⟩] (by decide)
    (by
      intro k hk
      rcases List.mem_cons.mp hk with h1 | hk2
      · subst h1
        exact Or.inl ⟨wSigErr, by decide, by decide⟩
      · have h2 : k = (⟨2⟩ : RSAPublicKey) := by simpa using hk2
        subst h2
        exact Or.inr ⟨wBadTok, by decide, by decide⟩)

/-- Congruence of the loop in the per-key attempt oracle: the outcome
and attempt count depend only on the oracle's value at each key. -/
theorem validateLoop_congr (p1 p2 : RSAPublicKey → ParseOutcome)
    (h : ∀ k, p1 k = p2 k) (keys : List RSAPublicKey) :
    ∀ lastErr, validateLoop p1 keys lastErr = validateLoop p2 keys lastErr := by
  induction keys with
  | nil => exact fun _ => rfl
  | cons k rest ih =>
    intro lastErr
    simp only [validateLoop, h k]
    cases p2 k with
    | failure e =>
      by_cases hsc : shouldShortCircutError e = true <;> simp [hsc, ih]
    | success tok =>
      by_cases hok : (tok.claimsOk && tok.valid && (tok.alg == jwtAlg)) = true <;>
        simp [hok, ih]

/-- Claim C8: for a fixed loaded key set and token, the outcome of
`ValidateToken` (claims or error, and the attempt count) is a function
of the per-key verification outcomes alone — two runs whose attempts
agree pointwise on keys produce identical results. -/
theorem c8_deterministic
    (p1 p2 : String → RSAPublicKey → ParseOutcome)
    (keysValue : Option keysType) (token : String)
    (h : ∀ k, p1 token k = p2 token k) :
    ValidateToken p1 keysValue token = ValidateToken p2 keysValue token ∧
    ValidateTokenAttempts p1 keysValue token =
      ValidateTokenAttempts p2 keysValue token := by
  cases keysValue with
  | none => exact ⟨rfl, rfl⟩
  | some keys =>
    have hl := validateLoop_congr (fun key => p1 token key)
      (fun key => p2 token key) h keys none
    exact ⟨by simp [ValidateToken, hl], by simp [ValidateTokenAttempts, hl]⟩

/-- Witness for `c8_deterministic`: two runs with the same oracle. -/
theorem c8_deterministic_witness :
    ValidateToken wTwoKeyParse (some [⟨1⟩, ⟨2⟩]) "t" =
      ValidateToken wTwoKeyParse (some [⟨1⟩, ⟨2⟩]) "t" ∧
    ValidateTokenAttempts wTwoKeyParse (some [⟨1⟩, ⟨2⟩]) "t" =
      ValidateTokenAttempts wTwoKeyParse (some [⟨1⟩, ⟨2⟩]) "t" :=
  c8_deterministic wTwoKeyParse wTwoKeyParse (some [⟨1⟩, ⟨2⟩]) "t" (fun _ => rfl)

/-- Claim C9 (implicit): when a key attempt parses but the token is not
accepted (claims assertion, `Valid` flag, or declared algorithm fails),
the loop does not return that failure immediately: it records the blank
`jwt.NewValidationError("", 0)` as the last error and continues with the
remaining keys, charging one attempt for the current key. -/
theorem c9_invalid_accepted_token_continues
    (parseWithClaims : String → RSAPublicKey → ParseOutcome) (token : String)
    (key : RSAPublicKey) (rest : List RSAPublicKey) (lastErr : Option GoError)
    (tok : ParsedToken)
    (h : parseWithClaims token key = ParseOutcome.success tok)
    (hbad : (tok.claimsOk && tok.valid && (tok.alg == jwtAlg)) = false) :
    validateLoop (fun k => parseWithClaims token k) (key :: rest) lastErr =
      ((validateLoop (fun k => parseWithClaims token k) rest
          (some (GoError.jwtValidation (jwtNewValidationError "" 0)))).1,
       (validateLoop (fun k => parseWithClaims token k) rest
          (some (GoError.jwtValidation (jwtNewValidationError "" 0)))).2 + 1) := by
  simp [validateLoop, h, hbad]

/-- Parse oracle for the C9 witness: always parses to the
wrong-algorithm token. -/
def wBadTokParse : String → RSAPublicKey → ParseOutcome :=
  fun _ _ => ParseOutcome.success wBadTok

/-- Witness for `c9_invalid_accepted_token_continues`. -/
theorem c9_invalid_accepted_token_continues_witness :
    validateLoop (fun k => wBadTokParse "t" k) [⟨1⟩] none =
      ((validateLoop (fun k => wBadTokParse "t" k) []
          (some (GoError.jwtValidation (jwtNewValidationError "" 0)))).1,
       (validateLoop (fun k => wBadTokParse "t" k) []
          (some (GoError.jwtValidation (jwtNewValidationError "" 0)))).2 + 1) :=
  c9_invalid_accepted_token_continues wBadTokParse "t" ⟨1⟩ [] none wBadTok rfl
    (by decide)

/-- The loop never produces the nil/nil pair when it starts with at
least one key or a non-nil remembered error. -/
theorem validateLoop_result_not_both_none
    (parse : RSAPublicKey → ParseOutcome) (keys : List RSAPublicKey) :
    ∀ lastErr : Option GoError, keys ≠ [] ∨ lastErr ≠ none →
      (validateLoop parse keys lastErr).1 ≠
        ((none : Option AuthenticationToken), (none : Option GoError)) := by
  induction keys with
  | nil =>
    intro lastErr h
    rcases h with h | h
    · exact absurd rfl h
    · cases lastErr with
      | none => exact absurd rfl h
      | some e => simp [validateLoop]
  | cons k rest ih =>
    intro lastErr _
    cases hk : parse k with
    | failure e =>
      cases hsc : shouldShortCircutError e with
      | true => simp [validateLoop, hk, hsc]
      | false =>
        have hr := ih (some e) (Or.inr (by simp))
        simpa [validateLoop, hk, hsc] using hr
    | success tok =>
      cases hok : (tok.claimsOk && tok.valid && (tok.alg == jwtAlg)) with
      | true => simp [validateLoop, hk, hok]
      | false =>
        have hr := ih (some (GoError.jwtValidation (jwtNewValidationError "" 0)))
          (Or.inr (by simp))
        simpa [validateLoop, hk, hok] using hr

/-- Claim C10 (implicit): when the slot is either never-published or
holds a non-empty key set, `ValidateToken` never returns the nil-claims,
nil-error pair. -/
theorem c10_never_both_nil
    (parseWithClaims : String → RSAPublicKey → ParseOutcome)
    (keysValue : Option keysType) (token : String)
    (h : keysValue = none ∨ ∃ ks, keysValue = some ks ∧ ks ≠ []) :
    ValidateToken parseWithClaims keysValue token ≠
      ((none : Option AuthenticationToken), (none : Option GoError)) := by
  rcases h with h | ⟨ks, hks, hne⟩
  · subst h
    simp [ValidateToken]
  · subst hks
    have := validateLoop_result_not_both_none
      (fun key => parseWithClaims token key) ks none (Or.inl hne)
    simpa [ValidateToken] using this

/-- Witness for `c10_never_both_nil` on the never-published slot. -/
theorem c10_never_both_nil_witness :
    ValidateToken wBadTokParse none "t" ≠
      ((none : Option AuthenticationToken), (none : Option GoError)) :=
  c10_never_both_nil wBadTokParse none "t" (Or.inl rfl)

end Edgecontext
